import Mathlib

/-!
Shallow embedding of the paper-review reminder bot's queue/reminder engine
(`database.py` and the event handlers of `bot.py`).

The SQLite tables are modelled as lists kept in row (insertion) order, which
mirrors rowid order: `user_queue` becomes `DB.queue`, `active_reminders`
becomes `DB.reminders`, and the `skip_week` table is modelled by its row
count `DB.skipRows` (the code only ever checks `COUNT(*) > 0`, inserts one
row, or deletes all rows).  `AUTOINCREMENT` primary keys are modelled with
the monotone counters `nextQueueId` / `nextReminderId` (ids are never
reused).  Timestamps are abstract `Nat` ticks supplied by the caller in
place of `datetime.now()`.  The outbound notification transport is modelled
by a boolean `sendOk` parameter (did `bot.send_message` raise?) together
with the ghost field `DB.notified` recording the queue ids that were
actually delivered a reminder.  The history table is a pure observational
sink consulted by no logic, and is omitted.
-/

namespace PaperBot

/-- Row of the `user_queue` table.  `user_id = 0` is the placeholder for
"identity unresolved"; `username` is nullable.  The display-only columns
`first_name` / `last_name` are omitted: no control flow of the engine reads
them.  `position` is the 0-based rank. -/
structure Entry where
  id : Nat
  user_id : Nat
  username : Option String
  position : Nat
deriving Repr, DecidableEq

/-- Row of the `active_reminders` table.  The `queue_id` column is nullable
in the schema only for legacy rows migrated from an old database file; every
reminder created by this code binds it, so it is modelled as `Nat`.  Queue
ids start at 1, so `queue_id = 0` never occurs (this matters for the Python
truthiness test `queue_id or ...` in the auto-pop handler). -/
structure Reminder where
  id : Nat
  queue_id : Nat
  user_id : Nat
  username : Option String
  reminder_count : Nat
  created_at : Nat
  last_reminded_at : Nat
  next_reminder_at : Option Nat
deriving Repr, DecidableEq

/-- The persistent state the engine mutates, plus the ghost `notified` log
of queue ids that were successfully sent a reminder message. -/
structure DB where
  queue : List Entry
  reminders : List Reminder
  skipRows : Nat
  notified : List Nat
  nextQueueId : Nat
  nextReminderId : Nat
deriving Repr, DecidableEq

/-- Fresh database: empty tables, AUTOINCREMENT counters at 1. -/
def initDB : DB := ⟨[], [], 0, [], 1, 1⟩

/-- Fold computing the maximum of a list of naturals (0 on the empty list). -/
def natMax : List Nat → Nat
  | [] => 0
  | x :: xs => max x (natMax xs)

/-- `SELECT MAX(position) FROM user_queue`: `none` on an empty table. -/
def maxPosition? (q : List Entry) : Option Nat :=
  match q with
  | [] => none
  | _ :: _ => some (natMax (q.map (fun e => e.position)))

/-- Duplicate-username guard of `add_user_to_queue`.  The Python code first
runs a `SELECT` pre-check when a username is supplied and additionally
relies on the `UNIQUE` constraint of the column; the combined effect is that
inserting any already-present non-null username fails, while `NULL`
usernames are never deduplicated. -/
def usernameTaken (username : Option String) (q : List Entry) : Bool :=
  match username with
  | none => false
  | some u => q.any (fun e => e.username == some u)

/-- `Database.add_user_to_queue`: reject a duplicate username, otherwise
append a row at position `MAX(position) + 1` (0 on an empty queue). -/
def addUserToQueue (user_id : Nat) (username : Option String) (db : DB) : Bool × DB :=
  if usernameTaken username db.queue then (false, db)
  else
    let nextPos := match maxPosition? db.queue with
      | some m => m + 1
      | none => 0
    let e : Entry := ⟨db.nextQueueId, user_id, username, nextPos⟩
    (true, { db with queue := db.queue ++ [e], nextQueueId := db.nextQueueId + 1 })

/-- `Database.remove_user_from_queue`: fetch the position of the first row
matching `user_id` (fetchone in rowid order), then run
`DELETE FROM user_queue WHERE user_id = ?` — which removes EVERY matching
row, there is no LIMIT — and decrement the position of the remaining rows
whose position exceeds the fetched one. -/
def removeUserFromQueue (user_id : Nat) (db : DB) : Bool × DB :=
  match db.queue.find? (fun e => e.user_id == user_id) with
  | none => (false, db)
  | some e =>
      let q1 := db.queue.filter (fun x => !(x.user_id == user_id))
      let q2 := q1.map (fun x =>
        if e.position < x.position then { x with position := x.position - 1 } else x)
      (true, { db with queue := q2 })

/-- `Database.get_next_user`: `ORDER BY position ASC LIMIT 1`; the earliest
row wins on (abnormal) position ties, mirroring rowid tie-breaking. -/
def getNextUser (q : List Entry) : Option Entry :=
  match q with
  | [] => none
  | e :: es => some (es.foldl (fun b x => if x.position < b.position then x else b) e)

/-- `Database.move_user_to_back_by_queue_id`: look the row up by primary
key; `True` if already at the maximum position; otherwise decrement every
OTHER row with a greater position (`WHERE position > ? AND id != ?`) and
then set the row's position to the old maximum. -/
def moveUserToBackByQueueId (queue_id : Nat) (db : DB) : Bool × DB :=
  match db.queue.find? (fun e => e.id == queue_id) with
  | none => (false, db)
  | some e =>
      match maxPosition? db.queue with
      | none => (true, db)
      | some m =>
        if e.position == m then (true, db)
        else
          let q1 := db.queue.map (fun x =>
            if e.position < x.position && !(x.id == queue_id)
            then { x with position := x.position - 1 } else x)
          let q2 := q1.map (fun x =>
            if x.id == queue_id then { x with position := m } else x)
          (true, { db with queue := q2 })

/-- Stable insertion into a list sorted by ascending position. -/
def insertByPos (e : Entry) : List Entry → List Entry
  | [] => [e]
  | x :: xs => if e.position ≤ x.position then e :: x :: xs else x :: insertByPos e xs

/-- `Database.get_queue_list`: all rows `ORDER BY position ASC` (stable
insertion sort, earlier rows first on ties). -/
def getQueueList (q : List Entry) : List Entry :=
  q.foldr insertByPos []

/-- `Database.clear_queue`. -/
def clearQueue (db : DB) : DB := { db with queue := [] }

/-- `Database.create_reminder`: insert a row with `reminder_count = 0`,
`created_at = last_reminded_at = now`, returning the fresh id. -/
def createReminder (queue_id user_id : Nat) (username : Option String)
    (next_reminder_at : Option Nat) (now : Nat) (db : DB) : Nat × DB :=
  let r : Reminder :=
    ⟨db.nextReminderId, queue_id, user_id, username, 0, now, now, next_reminder_at⟩
  (db.nextReminderId,
   { db with reminders := db.reminders ++ [r], nextReminderId := db.nextReminderId + 1 })

/-- Username branch of `get_active_reminder`: Python's `elif username:`
skips both `None` and the empty string. -/
def usernameLookup (username : Option String) (rs : List Reminder) : Option Reminder :=
  match username with
  | none => none
  | some n => if n == "" then none else rs.find? (fun r => r.username == some n)

/-- `Database.get_active_reminder`: branch on which ARGUMENT is supplied —
`queue_id` if not `None`, else a non-zero `user_id`, else a non-empty
`username` — and query by that single key only (fetchone, first row wins). -/
def getActiveReminder (queue_id : Option Nat) (user_id : Option Nat)
    (username : Option String) (rs : List Reminder) : Option Reminder :=
  match queue_id with
  | some q => rs.find? (fun r => r.queue_id == q)
  | none =>
    match user_id with
    | some u => if u != 0 then rs.find? (fun r => r.user_id == u) else usernameLookup username rs
    | none => usernameLookup username rs

/-- `Database.update_reminder`: overwrite `reminder_count`,
`last_reminded_at` and `next_reminder_at` of the row with the given id. -/
def updateReminder (reminder_id reminder_count last_reminded_at : Nat)
    (next_reminder_at : Option Nat) (db : DB) : DB :=
  { db with reminders := db.reminders.map (fun r =>
      if r.id == reminder_id then
        { r with reminder_count := reminder_count,
                 last_reminded_at := last_reminded_at,
                 next_reminder_at := next_reminder_at }
      else r) }

/-- `Database.delete_reminder`: `DELETE FROM active_reminders WHERE id = ?`. -/
def deleteReminder (reminder_id : Nat) (db : DB) : DB :=
  { db with reminders := db.reminders.filter (fun r => !(r.id == reminder_id)) }

/-- `Database.set_skip_week`: insert one row into `skip_week`. -/
def setSkipWeek (db : DB) : DB := { db with skipRows := db.skipRows + 1 }

/-- `Database.is_week_skipped`: `COUNT(*) > 0`. -/
def isWeekSkipped (db : DB) : Bool := decide (0 < db.skipRows)

/-- `Database.clear_skip_week`: delete ALL rows of `skip_week`. -/
def clearSkipWeek (db : DB) : DB := { db with skipRows := 0 }

/-- `Database.find_queue_id`: `if user_id:` (truthy, i.e. non-zero) try the
`user_id` lookup; on failure fall through to the (truthy) `username`
lookup. -/
def findQueueId (user_id : Nat) (username : Option String) (q : List Entry) : Option Nat :=
  match (if user_id != 0 then q.find? (fun e => e.user_id == user_id) else none) with
  | some e => some e.id
  | none =>
    match username with
    | none => none
    | some n =>
      if n == "" then none
      else
        match q.find? (fun e => e.username == some n) with
        | some e => some e.id
        | none => none

/-- Normal (non-skipped) part of `ReminderBot.send_weekly_reminder`: fetch
the front-of-queue entry; look up its active reminder by `queue_id`; then
attempt the outbound send.  The group and direct-message branches of the
Python code perform identical state updates, so they collapse here.  The
create/update of the reminder sits INSIDE the `try`, after the `await
send_message`: when the send raises (`sendOk = false`) no state changes. -/
def dispatchReminder (sendOk : Bool) (now : Nat) (db : DB) : DB :=
  match getNextUser db.queue with
  | none => db
  | some front =>
    let ar := getActiveReminder (some front.id) (some front.user_id) front.username db.reminders
    if sendOk then
      let db1 := { db with notified := db.notified ++ [front.id] }
      match ar with
      | some r => updateReminder r.id r.reminder_count now none db1
      | none => (createReminder front.id front.user_id front.username none now db1).2
    else db

/-- `ReminderBot.send_weekly_reminder`: if the skip-week flag is set, clear
it and return without touching queue or reminders (the optional group
notice changes no state); otherwise run the normal dispatch. -/
def sendWeeklyReminder (sendOk : Bool) (now : Nat) (db : DB) : DB :=
  if isWeekSkipped db then clearSkipWeek db else dispatchReminder sendOk now db

/-- `ReminderBot.noreview_command` (after the admin check): on an empty
queue reply and return WITHOUT setting the flag; otherwise delete the front
entry's active reminder if it has one, never rotate, and set the skip-week
flag. -/
def noreviewCommand (db : DB) : DB :=
  match getNextUser db.queue with
  | none => db
  | some front =>
    let db1 :=
      match getActiveReminder (some front.id) (some front.user_id) front.username db.reminders with
      | some r => deleteReminder r.id db
      | none => db
    setSkipWeek db1

/-- Queue-entry lookup of `ReminderBot.skip_command`: scan the queue in
position order for a row whose non-zero `user_id` equals the caller's id,
then (if the caller has a username) for a case-insensitive username match. -/
def findSkipEntry (callerId : Nat) (callerUsername : Option String)
    (q : List Entry) : Option Entry :=
  let ql := getQueueList q
  match ql.find? (fun e => e.user_id == callerId && !(e.user_id == 0)) with
  | some e => some e
  | none =>
    match callerUsername with
    | none => none
    | some cu =>
      if cu == "" then none
      else ql.find? (fun e =>
        match e.username with
        | some n => n.toLower == cu.toLower
        | none => false)

/-- `ReminderBot.skip_command`: resolve the caller to a queue entry and its
active reminder (bail out replying if either is missing), delete the
reminder, rotate the entry to the back, then synchronously re-run
`send_weekly_reminder`. -/
def skipCommand (callerId : Nat) (callerUsername : Option String)
    (sendOk : Bool) (now : Nat) (db : DB) : DB :=
  match findSkipEntry callerId callerUsername db.queue with
  | none => db
  | some e =>
    match getActiveReminder (some e.id) (some e.user_id) e.username db.reminders with
    | none => db
    | some r =>
      let db1 := deleteReminder r.id db
      let db2 := (moveUserToBackByQueueId e.id db1).2
      sendWeeklyReminder sendOk now db2

/-- One iteration of the `ReminderBot.handle_autopop` loop: resolve the
reminder's queue id (`queue_id or find_queue_id(...)`, i.e. fall back when
the stored id is falsy), then either delete the orphan, or rotate and
delete. -/
def autopopStep (db : DB) (r : Reminder) : DB :=
  match (if r.queue_id != 0 then some r.queue_id
         else findQueueId r.user_id r.username db.queue) with
  | none => deleteReminder r.id db
  | some qid => deleteReminder r.id (moveUserToBackByQueueId qid db).2

/-- `ReminderBot.handle_autopop`: snapshot the reminder table, then process
every snapshot row in order against the evolving state. -/
def handleAutopop (db : DB) : DB := db.reminders.foldl autopopStep db

/-- Top-level events that mutate the store (the transport/auth wrappers
around them are state-irrelevant).  `initqueue` is `clearQ` followed by a
sequence of `addUser` events. -/
inductive Event where
  | addUser (user_id : Nat) (username : Option String)
  | removeUser (user_id : Nat)
  | clearQ
  | moveBack (queue_id : Nat)
  | dispatch (sendOk : Bool) (now : Nat)
  | noreview
  | selfSkip (callerId : Nat) (callerUsername : Option String) (sendOk : Bool) (now : Nat)
  | autopop

/-- State transition of one top-level event. -/
def stepEvent : Event → DB → DB
  | .addUser uid uname, db => (addUserToQueue uid uname db).2
  | .removeUser uid, db => (removeUserFromQueue uid db).2
  | .clearQ, db => clearQueue db
  | .moveBack qid, db => (moveUserToBackByQueueId qid db).2
  | .dispatch ok now, db => sendWeeklyReminder ok now db
  | .noreview, db => noreviewCommand db
  | .selfSkip cid cu ok now, db => skipCommand cid cu ok now db
  | .autopop, db => handleAutopop db

/-- States observable between top-level events, starting from a fresh
database. -/
inductive Reachable : DB → Prop where
  | init : Reachable initDB
  | step (ev : Event) {db : DB} : Reachable db → Reachable (stepEvent ev db)

/-- States reachable using only the three queue-store mutations named by
the dense-positions property: insert, remove and move-to-back. -/
inductive QueueReachable : DB → Prop where
  | init : QueueReachable initDB
  | add (user_id : Nat) (username : Option String) {db : DB} :
      QueueReachable db → QueueReachable (addUserToQueue user_id username db).2
  | remove (user_id : Nat) {db : DB} :
      QueueReachable db → QueueReachable (removeUserFromQueue user_id db).2
  | moveBack (queue_id : Nat) {db : DB} :
      QueueReachable db → QueueReachable (moveUserToBackByQueueId queue_id db).2

/-- Dense positions: the multiset of positions is exactly `{0, ..., N-1}`. -/
def densePositions (q : List Entry) : Prop :=
  (q.map (fun e => e.position)).Perm (List.range q.length)

/-- Number of active-reminder rows referencing a given queue id. -/
def remCount (q : Nat) (rs : List Reminder) : Nat :=
  (rs.filter (fun r => r.queue_id == q)).length

/-- The central consistency guarantee: at most one active reminder per
queue entry. -/
def AtMostOneReminder (rs : List Reminder) : Prop :=
  ∀ q, remCount q rs ≤ 1

instance (q : List Entry) : Decidable (densePositions q) := by
  unfold densePositions
  infer_instance

/-- Username part of the key-selection of `get_active_reminder`, as a
predicate on a single row. -/
def usernameMatches (username : Option String) (r : Reminder) : Bool :=
  match username with
  | none => false
  | some n => if n == "" then false else r.username == some n

/-- The single lookup key `get_active_reminder` selects — `queue_id` when
supplied, else a non-zero `user_id`, else a non-empty `username` — as a
predicate on a single row.  Used to state what the lookup can and cannot
return. -/
def selectedKeyMatches (queue_id : Option Nat) (user_id : Option Nat)
    (username : Option String) (r : Reminder) : Bool :=
  match queue_id with
  | some q => r.queue_id == q
  | none =>
    match user_id with
    | some u => if u != 0 then r.user_id == u else usernameMatches username r
    | none => usernameMatches username r

/-- Combined per-row effect of the two position `UPDATE`s of
`move_user_to_back_by_queue_id`, for a row found at position `P` with
maximum position `M`. -/
def rotApply (P M queue_id : Nat) (e : Entry) : Entry :=
  if e.id == queue_id then { e with position := M }
  else if P < e.position then { e with position := e.position - 1 }
  else e

/-- Queue `[user_id 0, user_id 0]` built by two placeholder inserts. -/
def dbTwoPlaceholders : DB :=
  (addUserToQueue 0 none (addUserToQueue 0 none initDB).2).2

/-- State reached by `insert(0), insert(0), insert(5), remove(0)`. -/
def dbC1bad : DB :=
  (removeUserFromQueue 0 (addUserToQueue 5 none dbTwoPlaceholders).2).2

/-- One-entry queue, no reminder, skip flag clear. -/
def dbC5 : DB := ⟨[⟨1, 7, none, 0⟩], [], 0, [], 2, 1⟩

/-- One-entry queue whose front entry has an active reminder with
`reminder_count = 0`. -/
def dbC6 : DB := ⟨[⟨1, 0, none, 0⟩], [⟨1, 1, 0, none, 0, 0, 0, none⟩], 0, [], 2, 2⟩

/-- One-entry queue with the skip-week flag set twice. -/
def dbC7 : DB := ⟨[⟨1, 7, none, 0⟩], [], 2, [], 2, 1⟩

/-- Two-entry queue whose front entry has an active reminder. -/
def dbC8 : DB :=
  ⟨[⟨1, 7, none, 0⟩, ⟨2, 8, none, 1⟩], [⟨1, 1, 7, none, 0, 0, 0, none⟩], 0, [], 3, 2⟩

/-- A reminder bound to `queue_id 1` and `user_id 7`. -/
def rC9 : Reminder := ⟨1, 1, 7, none, 0, 0, 0, none⟩

/-- Two-entry queue with a reminder on the front entry and the skip-week
flag set. -/
def dbC10 : DB :=
  ⟨[⟨1, 7, none, 0⟩, ⟨2, 8, none, 1⟩], [⟨1, 1, 7, none, 0, 0, 0, none⟩], 1, [], 3, 2⟩

/-- Three-entry dense queue. -/
def dbC4 : DB :=
  ⟨[⟨1, 7, none, 0⟩, ⟨2, 8, none, 1⟩, ⟨3, 9, none, 2⟩], [], 0, [], 4, 1⟩

/-- Reachable state with one queue entry and an active reminder for it:
one insert followed by one successful dispatch. -/
def dbC2w : DB := stepEvent (.dispatch true 0) (stepEvent (.addUser 7 none) initDB)

/-- C1: the dense-positions invariant is NOT maintained by the code.  The
state reached by `insert(user_id 0)`, `insert(user_id 0)`,
`insert(user_id 5)`, `remove(user_id 0)` is reachable via the three queue
operations, yet its single surviving entry sits at position 1, not 0:
`remove` deletes EVERY row with the given user_id while compacting
positions as if only one row had been removed. -/
theorem c1_dense_positions_violated :
    QueueReachable dbC1bad ∧ ¬ densePositions dbC1bad.queue :=
  ⟨QueueReachable.remove 0 (QueueReachable.add 5 none
      (QueueReachable.add 0 none (QueueReachable.add 0 none QueueReachable.init))),
   by decide⟩

/-- C3: on a queue holding two placeholder entries (both `user_id = 0`),
`remove(0)` reports success but deletes BOTH entries, not exactly the
first-matching one: the `DELETE` has no `LIMIT`. -/
theorem c3_remove_deletes_every_matching_row :
    dbTwoPlaceholders.queue.length = 2
    ∧ (removeUserFromQueue 0 dbTwoPlaceholders).1 = true
    ∧ (removeUserFromQueue 0 dbTwoPlaceholders).2.queue.length = 0 := by decide

/-- C5 counterexample: on a one-entry queue with no reminder, a dispatch
whose send fails leaves the reminder table empty while a dispatch whose
send succeeds creates a reminder — the resulting ActiveReminder states
differ, contradicting the claim that they are the same. -/
theorem c5_counterexample :
    ¬ ((sendWeeklyReminder false 0 dbC5).reminders
        = (sendWeeklyReminder true 0 dbC5).reminders) := by decide

/-- C5 (amended): the reminder-state transition of a dispatch is applied
only when the outbound send succeeds; a dispatch whose send raises changes
nothing at all (the create/update sits inside the `try`, after the
`await`). -/
theorem c5_failed_send_changes_nothing (db : DB) (now : Nat)
    (h : isWeekSkipped db = false) :
    sendWeeklyReminder false now db = db := by
  unfold sendWeeklyReminder dispatchReminder
  rw [h]
  simp only [Bool.false_eq_true, if_false]
  cases hf : getNextUser db.queue <;> rfl

/-- Witness for the amended C5 at a concrete state. -/
theorem c5_failed_send_changes_nothing_witness :
    sendWeeklyReminder false 3 dbC5 = dbC5 :=
  c5_failed_send_changes_nothing dbC5 3 rfl

/-- C6 counterexample: the front entry's reminder has `reminder_count = 0`;
after a successful re-dispatch the count is still 0, not 0 + 1 — the code
passes the fetched count back to `update_reminder` unchanged. -/
theorem c6_counterexample :
    ((sendWeeklyReminder true 5 dbC6).reminders.map (fun r => r.reminder_count) = [0])
    ∧ ¬ ((sendWeeklyReminder true 5 dbC6).reminders.map (fun r => r.reminder_count)
          = [0 + 1]) := by decide

/-- C7: with the skip-week flag set, the first dispatch merely clears the
flag — queue, reminders and delivered notifications are untouched — and a
second dispatch then runs as a normal (non-skipped) dispatch. -/
theorem c7_skip_flag_one_shot (db : DB) (ok1 ok2 : Bool) (now1 now2 : Nat)
    (h : isWeekSkipped db = true) :
    sendWeeklyReminder ok1 now1 db = { db with skipRows := 0 }
    ∧ (sendWeeklyReminder ok1 now1 db).queue = db.queue
    ∧ (sendWeeklyReminder ok1 now1 db).reminders = db.reminders
    ∧ (sendWeeklyReminder ok1 now1 db).notified = db.notified
    ∧ isWeekSkipped (sendWeeklyReminder ok1 now1 db) = false
    ∧ sendWeeklyReminder ok2 now2 (sendWeeklyReminder ok1 now1 db)
        = dispatchReminder ok2 now2 { db with skipRows := 0 } := by
  have e1 : sendWeeklyReminder ok1 now1 db = { db with skipRows := 0 } := by
    unfold sendWeeklyReminder
    rw [h]
    rfl
  refine ⟨e1, by rw [e1], by rw [e1], by rw [e1], by rw [e1]; rfl, ?_⟩
  rw [e1]
  unfold sendWeeklyReminder
  rfl

/-- Witness for C7 at a concrete state with the flag set twice. -/
theorem c7_skip_flag_one_shot_witness :
    sendWeeklyReminder true 1 dbC7 = { dbC7 with skipRows := 0 }
    ∧ (sendWeeklyReminder true 1 dbC7).queue = dbC7.queue
    ∧ (sendWeeklyReminder true 1 dbC7).reminders = dbC7.reminders
    ∧ (sendWeeklyReminder true 1 dbC7).notified = dbC7.notified
    ∧ isWeekSkipped (sendWeeklyReminder true 1 dbC7) = false
    ∧ sendWeeklyReminder true 2 (sendWeeklyReminder true 1 dbC7)
        = dispatchReminder true 2 { dbC7 with skipRows := 0 } :=
  c7_skip_flag_one_shot dbC7 true true 1 2 rfl

/-- C8 counterexample: on an empty queue `/noreview` returns early and the
skip-week flag is NOT set, contradicting "always sets the SkipFlag". -/
theorem c8_counterexample :
    noreviewCommand initDB = initDB
    ∧ isWeekSkipped (noreviewCommand initDB) = false := by decide

/-- C8 (amended): on a NON-empty queue, `/noreview` deletes the front
entry's active reminder when one exists, never touches the queue order or
the notification log, and always sets the skip-week flag; on an empty
queue it is a complete no-op and in particular does not set the flag. -/
theorem c8_noreview_behavior (db : DB) :
    match getNextUser db.queue with
    | none => noreviewCommand db = db
    | some front =>
        (noreviewCommand db).queue = db.queue
        ∧ (noreviewCommand db).skipRows = db.skipRows + 1
        ∧ isWeekSkipped (noreviewCommand db) = true
        ∧ (noreviewCommand db).notified = db.notified
        ∧ (noreviewCommand db).reminders =
            (match getActiveReminder (some front.id) (some front.user_id) front.username
                db.reminders with
             | some r => (deleteReminder r.id db).reminders
             | none => db.reminders) := by
  cases hf : getNextUser db.queue with
  | none => simp [noreviewCommand, hf]
  | some front =>
    cases hr : getActiveReminder (some front.id) (some front.user_id) front.username
        db.reminders with
    | none => simp [noreviewCommand, hf, hr, setSkipWeek, isWeekSkipped, deleteReminder]
    | some r => simp [noreviewCommand, hf, hr, setSkipWeek, isWeekSkipped, deleteReminder]

/-- C9 counterexample: with a single reminder bound to `queue_id 1` and
`user_id 7`, calling the lookup with `queue_id = 5` and `user_id = 7`
returns `None` even though the supplied `user_id` key matches that
reminder (as the second call shows): the code branches on which argument
is supplied, not on which key matches. -/
theorem c9_counterexample :
    getActiveReminder (some 5) (some 7) none [rC9] = none
    ∧ getActiveReminder none (some 7) none [rC9] = some rC9 := by decide

/-- The username branch of `get_active_reminder` is a `find?` over the
single-row username predicate. -/
theorem usernameLookup_eq_find? (username : Option String) (rs : List Reminder) :
    usernameLookup username rs = rs.find? (usernameMatches username) := by
  cases username with
  | none =>
    exact (List.find?_eq_none.2 (fun r _ => by simp [usernameMatches])).symm
  | some n =>
    cases hn : n == "" with
    | true =>
      have h0 : usernameLookup (some n) rs = none := by
        simp [usernameLookup, hn]
      rw [h0]
      exact (List.find?_eq_none.2 (fun r _ => by simp [usernameMatches, hn])).symm
    | false =>
      have h1 : usernameLookup (some n) rs
          = rs.find? (fun r => r.username == some n) := by
        simp [usernameLookup, hn]
      have h2 : usernameMatches (some n) = (fun r => r.username == some n) := by
        funext r
        simp [usernameMatches, hn]
      rw [h1, h2]

/-- C9 (amended): the lookup is exactly a first-match scan of the reminder
table against the ONE selected key — `queue_id` when supplied, else a
non-zero `user_id`, else a non-empty `username` — and so it returns `None`
precisely when no stored reminder matches that selected key, even when a
lower-precedence supplied key would have matched. -/
theorem c9_lookup_uses_selected_key_only (queue_id : Option Nat)
    (user_id : Option Nat) (username : Option String) (rs : List Reminder) :
    getActiveReminder queue_id user_id username rs
      = rs.find? (selectedKeyMatches queue_id user_id username)
    ∧ (getActiveReminder queue_id user_id username rs = none
        ↔ ∀ r ∈ rs, ¬ selectedKeyMatches queue_id user_id username r = true) := by
  have h1 : getActiveReminder queue_id user_id username rs
      = rs.find? (selectedKeyMatches queue_id user_id username) := by
    cases queue_id with
    | some q => rfl
    | none =>
      cases user_id with
      | some u =>
        cases hu : u != 0 with
        | true =>
          have hL : getActiveReminder none (some u) username rs
              = rs.find? (fun r => r.user_id == u) := by
            simp [getActiveReminder, hu]
          have hR : selectedKeyMatches none (some u) username
              = (fun r => r.user_id == u) := by
            funext r
            simp [selectedKeyMatches, hu]
          rw [hL, hR]
        | false =>
          have hL : getActiveReminder none (some u) username rs
              = rs.find? (usernameMatches username) := by
            simp [getActiveReminder, hu, usernameLookup_eq_find?]
          have hR : selectedKeyMatches none (some u) username
              = usernameMatches username := by
            funext r
            simp [selectedKeyMatches, hu]
          rw [hL, hR]
      | none =>
        have hL : getActiveReminder none none username rs
            = rs.find? (usernameMatches username) := by
          simp [getActiveReminder, usernameLookup_eq_find?]
        rw [hL]
        rfl
  refine ⟨h1, ?_⟩
  rw [h1, List.find?_eq_none]

/-! Field-preservation lemmas for the store operations. -/

theorem addUser_reminders (user_id : Nat) (username : Option String) (db : DB) :
    (addUserToQueue user_id username db).2.reminders = db.reminders := by
  unfold addUserToQueue
  split <;> rfl

theorem removeUser_reminders (user_id : Nat) (db : DB) :
    (removeUserFromQueue user_id db).2.reminders = db.reminders := by
  unfold removeUserFromQueue
  split <;> rfl

theorem moveBack_reminders (queue_id : Nat) (db : DB) :
    (moveUserToBackByQueueId queue_id db).2.reminders = db.reminders := by
  unfold moveUserToBackByQueueId
  repeat' split
  all_goals rfl

theorem moveBack_skipRows (queue_id : Nat) (db : DB) :
    (moveUserToBackByQueueId queue_id db).2.skipRows = db.skipRows := by
  unfold moveUserToBackByQueueId
  repeat' split
  all_goals rfl

theorem moveBack_notified (queue_id : Nat) (db : DB) :
    (moveUserToBackByQueueId queue_id db).2.notified = db.notified := by
  unfold moveUserToBackByQueueId
  repeat' split
  all_goals rfl

/-! Branch equations for the dispatch / skip / noreview handlers. -/

theorem dispatch_skip_eq {db : DB} (ok : Bool) (now : Nat)
    (h : isWeekSkipped db = true) :
    sendWeeklyReminder ok now db = clearSkipWeek db := by
  unfold sendWeeklyReminder
  rw [h]
  rfl

theorem dispatch_noskip_eq {db : DB} (ok : Bool) (now : Nat)
    (h : isWeekSkipped db = false) :
    sendWeeklyReminder ok now db = dispatchReminder ok now db := by
  unfold sendWeeklyReminder
  rw [h]
  rfl

theorem dispatchReminder_fail (now : Nat) (db : DB) :
    dispatchReminder false now db = db := by
  unfold dispatchReminder
  cases hf : getNextUser db.queue <;> rfl

theorem dispatchReminder_none {db : DB} (ok : Bool) (now : Nat)
    (hf : getNextUser db.queue = none) :
    dispatchReminder ok now db = db := by
  unfold dispatchReminder
  rw [hf]

theorem dispatchReminder_update {db : DB} {front : Entry} {r : Reminder} (now : Nat)
    (hf : getNextUser db.queue = some front)
    (har : getActiveReminder (some front.id) (some front.user_id) front.username
        db.reminders = some r) :
    dispatchReminder true now db
      = updateReminder r.id r.reminder_count now none
          { db with notified := db.notified ++ [front.id] } := by
  unfold dispatchReminder
  rw [hf]
  simp only [har, if_true]

theorem dispatchReminder_create {db : DB} {front : Entry} (now : Nat)
    (hf : getNextUser db.queue = some front)
    (har : getActiveReminder (some front.id) (some front.user_id) front.username
        db.reminders = none) :
    dispatchReminder true now db
      = (createReminder front.id front.user_id front.username none now
          { db with notified := db.notified ++ [front.id] }).2 := by
  unfold dispatchReminder
  rw [hf]
  simp only [har, if_true]

theorem skipCommand_no_entry {db : DB} (cid : Nat) (cu : Option String)
    (ok : Bool) (now : Nat)
    (hfe : findSkipEntry cid cu db.queue = none) :
    skipCommand cid cu ok now db = db := by
  unfold skipCommand
  rw [hfe]

theorem skipCommand_no_reminder {db : DB} {e : Entry} (cid : Nat)
    (cu : Option String) (ok : Bool) (now : Nat)
    (hfe : findSkipEntry cid cu db.queue = some e)
    (har : getActiveReminder (some e.id) (some e.user_id) e.username db.reminders
        = none) :
    skipCommand cid cu ok now db = db := by
  unfold skipCommand
  rw [hfe]
  simp only [har]

theorem skipCommand_eq_of_found {db : DB} {e : Entry} {r : Reminder}
    (callerId : Nat) (cu : Option String) (ok : Bool) (now : Nat)
    (hfe : findSkipEntry callerId cu db.queue = some e)
    (har : getActiveReminder (some e.id) (some e.user_id) e.username db.reminders
        = some r) :
    skipCommand callerId cu ok now db
      = sendWeeklyReminder ok now
          (moveUserToBackByQueueId e.id (deleteReminder r.id db)).2 := by
  unfold skipCommand
  rw [hfe]
  simp only [har]

/-! Counting lemmas for the at-most-one-reminder invariant. -/

theorem remCount_filter_le (q : Nat) (p : Reminder → Bool) (rs : List Reminder) :
    remCount q (rs.filter p) ≤ remCount q rs :=
  (List.Sublist.filter _ (List.filter_sublist rs)).length_le

theorem remCount_map_eq (q : Nat) (f : Reminder → Reminder) (rs : List Reminder)
    (h : ∀ r, (f r).queue_id = r.queue_id) :
    remCount q (rs.map f) = remCount q rs := by
  unfold remCount
  rw [List.filter_map]
  rw [List.length_map]
  refine congrArg _ ?_
  refine List.filter_congr ?_
  intro r _
  simp [h r]

theorem remCount_append_single (q : Nat) (rs : List Reminder) (r : Reminder) :
    remCount q (rs ++ [r]) = remCount q rs + (if r.queue_id == q then 1 else 0) := by
  unfold remCount
  rw [List.filter_append]
  by_cases h : (r.queue_id == q) = true
  · simp [h]
  · simp [h]

theorem remCount_eq_zero_of_find?_none {q : Nat} {rs : List Reminder}
    (h : rs.find? (fun r => r.queue_id == q) = none) :
    remCount q rs = 0 := by
  unfold remCount
  rw [List.length_eq_zero]
  exact List.filter_eq_nil_iff.2 (List.find?_eq_none.1 h)

theorem atMostOne_filter {rs : List Reminder} (p : Reminder → Bool)
    (h : AtMostOneReminder rs) : AtMostOneReminder (rs.filter p) :=
  fun q => le_trans (remCount_filter_le q p rs) (h q)

theorem atMostOne_update {db : DB} (rid c t : Nat) (nx : Option Nat)
    (h : AtMostOneReminder db.reminders) :
    AtMostOneReminder (updateReminder rid c t nx db).reminders := by
  intro q
  have heq : (updateReminder rid c t nx db).reminders
      = db.reminders.map (fun r =>
          if r.id == rid then
            { r with reminder_count := c, last_reminded_at := t, next_reminder_at := nx }
          else r) := rfl
  rw [heq, remCount_map_eq]
  · exact h q
  · intro r
    by_cases hr : (r.id == rid) = true <;> simp [hr]

theorem atMostOne_delete {db : DB} (rid : Nat)
    (h : AtMostOneReminder db.reminders) :
    AtMostOneReminder (deleteReminder rid db).reminders :=
  atMostOne_filter _ h

theorem atMostOne_create {db : DB} {qid : Nat} (uid : Nat) (un : Option String)
    (nx : Option Nat) (now : Nat)
    (hn : db.reminders.find? (fun r => r.queue_id == qid) = none)
    (h : AtMostOneReminder db.reminders) :
    AtMostOneReminder ((createReminder qid uid un nx now db).2).reminders := by
  intro q
  have heq : ((createReminder qid uid un nx now db).2).reminders
      = db.reminders ++ [⟨db.nextReminderId, qid, uid, un, 0, now, now, nx⟩] := rfl
  rw [heq, remCount_append_single]
  by_cases hq : ((⟨db.nextReminderId, qid, uid, un, 0, now, now, nx⟩ :
      Reminder).queue_id == q) = true
  · have hq' : qid = q := by simpa using hq
    have h0 : remCount q db.reminders = 0 := by
      subst hq'
      exact remCount_eq_zero_of_find?_none hn
    rw [hq', h0] at *
    simp [hq]
  · have : (if (⟨db.nextReminderId, qid, uid, un, 0, now, now, nx⟩ :
        Reminder).queue_id == q then 1 else 0) = 0 := by simp [hq]
    rw [this]
    simpa using h q

/-! Event-wise preservation of the at-most-one-reminder invariant. -/

theorem dispatch_atMostOne (ok : Bool) (now : Nat) (db : DB)
    (h : AtMostOneReminder db.reminders) :
    AtMostOneReminder (sendWeeklyReminder ok now db).reminders := by
  cases hs : isWeekSkipped db with
  | true =>
    rw [dispatch_skip_eq ok now hs]
    exact h
  | false =>
    rw [dispatch_noskip_eq ok now hs]
    cases ok with
    | false =>
      rw [dispatchReminder_fail]
      exact h
    | true =>
      cases hf : getNextUser db.queue with
      | none =>
        rw [dispatchReminder_none true now hf]
        exact h
      | some front =>
        cases har : getActiveReminder (some front.id) (some front.user_id)
            front.username db.reminders with
        | some r =>
          rw [dispatchReminder_update now hf har]
          exact atMostOne_update _ _ _ _ h
        | none =>
          rw [dispatchReminder_create now hf har]
          exact atMostOne_create _ _ _ _ har h

theorem autopopStep_atMostOne (db : DB) (r : Reminder)
    (h : AtMostOneReminder db.reminders) :
    AtMostOneReminder (autopopStep db r).reminders := by
  unfold autopopStep
  cases hres : (if r.queue_id != 0 then some r.queue_id
      else findQueueId r.user_id r.username db.queue) with
  | none => exact atMostOne_delete _ h
  | some qid =>
    refine atMostOne_delete _ ?_
    rw [moveBack_reminders]
    exact h

theorem handleAutopop_atMostOne (db : DB)
    (h : AtMostOneReminder db.reminders) :
    AtMostOneReminder (handleAutopop db).reminders := by
  unfold handleAutopop
  generalize db.reminders = l
  induction l generalizing db with
  | nil => exact h
  | cons r t ih => exact ih _ (autopopStep_atMostOne db r h)

theorem skipCommand_atMostOne (cid : Nat) (cu : Option String) (ok : Bool)
    (now : Nat) (db : DB) (h : AtMostOneReminder db.reminders) :
    AtMostOneReminder (skipCommand cid cu ok now db).reminders := by
  cases hfe : findSkipEntry cid cu db.queue with
  | none =>
    rw [skipCommand_no_entry cid cu ok now hfe]
    exact h
  | some e =>
    cases har : getActiveReminder (some e.id) (some e.user_id) e.username
        db.reminders with
    | none =>
      rw [skipCommand_no_reminder cid cu ok now hfe har]
      exact h
    | some r =>
      rw [skipCommand_eq_of_found cid cu ok now hfe har]
      refine dispatch_atMostOne ok now _ ?_
      rw [moveBack_reminders]
      exact atMostOne_delete _ h

theorem noreview_empty {db : DB} (hf : getNextUser db.queue = none) :
    noreviewCommand db = db := by
  unfold noreviewCommand
  rw [hf]

theorem noreview_delete {db : DB} {front : Entry} {r : Reminder}
    (hf : getNextUser db.queue = some front)
    (har : getActiveReminder (some front.id) (some front.user_id) front.username
        db.reminders = some r) :
    noreviewCommand db = setSkipWeek (deleteReminder r.id db) := by
  unfold noreviewCommand
  rw [hf]
  simp only [har]

theorem noreview_nodelete {db : DB} {front : Entry}
    (hf : getNextUser db.queue = some front)
    (har : getActiveReminder (some front.id) (some front.user_id) front.username
        db.reminders = none) :
    noreviewCommand db = setSkipWeek db := by
  unfold noreviewCommand
  rw [hf]
  simp only [har]

theorem noreview_atMostOne (db : DB) (h : AtMostOneReminder db.reminders) :
    AtMostOneReminder (noreviewCommand db).reminders := by
  cases hf : getNextUser db.queue with
  | none =>
    rw [noreview_empty hf]
    exact h
  | some front =>
    cases har : getActiveReminder (some front.id) (some front.user_id)
        front.username db.reminders with
    | none =>
      rw [noreview_nodelete hf har]
      exact h
    | some r =>
      rw [noreview_delete hf har]
      exact atMostOne_delete _ h

theorem stepEvent_atMostOne (ev : Event) (db : DB)
    (h : AtMostOneReminder db.reminders) :
    AtMostOneReminder (stepEvent ev db).reminders := by
  cases ev with
  | addUser uid uname =>
    show AtMostOneReminder (addUserToQueue uid uname db).2.reminders
    rw [addUser_reminders]
    exact h
  | removeUser uid =>
    show AtMostOneReminder (removeUserFromQueue uid db).2.reminders
    rw [removeUser_reminders]
    exact h
  | clearQ => exact h
  | moveBack qid =>
    show AtMostOneReminder (moveUserToBackByQueueId qid db).2.reminders
    rw [moveBack_reminders]
    exact h
  | dispatch ok now => exact dispatch_atMostOne ok now db h
  | noreview => exact noreview_atMostOne db h
  | selfSkip cid cu ok now => exact skipCommand_atMostOne cid cu ok now db h
  | autopop => exact handleAutopop_atMostOne db h

theorem reachable_atMostOne (db : DB) (h : Reachable db) :
    AtMostOneReminder db.reminders := by
  induction h with
  | init => intro q; simp [initDB, remCount]
  | step ev h ih => exact stepEvent_atMostOne ev _ ih

/-- C2: in every state observable between top-level events, at most one
active reminder references any given queue id; and a dispatch whose front
entry already has an active reminder never grows the reminder table — it
updates the existing row in place. -/
theorem c2_at_most_one_reminder_per_entry (db : DB) (h : Reachable db)
    (q : Nat) (ok : Bool) (now : Nat) :
    remCount q db.reminders ≤ 1
    ∧ (∀ front, getNextUser db.queue = some front →
        (getActiveReminder (some front.id) (some front.user_id) front.username
          db.reminders).isSome = true →
        (sendWeeklyReminder ok now db).reminders.length = db.reminders.length) := by
  refine ⟨reachable_atMostOne db h q, ?_⟩
  intro front hf hsome
  cases hs : isWeekSkipped db with
  | true =>
    rw [dispatch_skip_eq ok now hs]
    rfl
  | false =>
    rw [dispatch_noskip_eq ok now hs]
    cases ok with
    | false => rw [dispatchReminder_fail]
    | true =>
      cases har : getActiveReminder (some front.id) (some front.user_id)
          front.username db.reminders with
      | none =>
        rw [har] at hsome
        simp at hsome
      | some r =>
        rw [dispatchReminder_update now hf har]
        simp [updateReminder]

/-- Witness for C2 at a concrete reachable state holding one reminder. -/
theorem c2_at_most_one_reminder_per_entry_witness :
    remCount 1 dbC2w.reminders ≤ 1
    ∧ (sendWeeklyReminder true 5 dbC2w).reminders.length
        = dbC2w.reminders.length := by
  have h := c2_at_most_one_reminder_per_entry dbC2w
    (Reachable.step (.dispatch true 0)
      (Reachable.step (.addUser 7 none) Reachable.init)) 1 true 5
  exact ⟨h.1, h.2 ⟨1, 7, none, 0⟩ (by decide) (by decide)⟩

/-- C6 (amended): a successful re-dispatch to a front entry that already
has an active reminder rewrites that row in place — `reminder_count` is
written back UNCHANGED (the code does not increment it),
`last_reminded_at` is set to the current time, `next_reminder_at` is
cleared — and no new row is created. -/
theorem c6_redispatch_updates_in_place (db : DB) (now : Nat)
    (front : Entry) (r : Reminder)
    (hs : isWeekSkipped db = false)
    (hf : getNextUser db.queue = some front)
    (hr : getActiveReminder (some front.id) (some front.user_id) front.username
        db.reminders = some r) :
    (sendWeeklyReminder true now db).reminders
      = db.reminders.map (fun x =>
          if x.id == r.id
          then { x with reminder_count := r.reminder_count, last_reminded_at := now,
                        next_reminder_at := none }
          else x)
    ∧ (sendWeeklyReminder true now db).reminders.length = db.reminders.length := by
  have h1 : sendWeeklyReminder true now db
      = updateReminder r.id r.reminder_count now none
          { db with notified := db.notified ++ [front.id] } := by
    rw [dispatch_noskip_eq true now hs, dispatchReminder_update now hf hr]
  constructor
  · rw [h1]
    rfl
  · rw [h1]
    simp [updateReminder]

/-- Witness for the amended C6 at a concrete state. -/
theorem c6_redispatch_updates_in_place_witness :
    (sendWeeklyReminder true 5 dbC6).reminders
      = dbC6.reminders.map (fun x =>
          if x.id == 1
          then { x with reminder_count := 0, last_reminded_at := 5,
                        next_reminder_at := none }
          else x)
    ∧ (sendWeeklyReminder true 5 dbC6).reminders.length
        = dbC6.reminders.length :=
  c6_redispatch_updates_in_place dbC6 5 ⟨1, 0, none, 0⟩
    ⟨1, 1, 0, none, 0, 0, 0, none⟩ rfl rfl rfl

/-- C10: with the skip-week flag set, a self-skip by a caller holding an
active reminder deletes that reminder, rotates the caller to the back, and
the synchronous re-dispatch consumes the flag instead of notifying: the
flag ends cleared, nothing is delivered, and no reminder is created for
the new front entry. -/
theorem c10_self_skip_consumes_flag (db : DB) (callerId : Nat)
    (cu : Option String) (ok : Bool) (now : Nat) (e : Entry) (r : Reminder)
    (hskip : isWeekSkipped db = true)
    (he : findSkipEntry callerId cu db.queue = some e)
    (hr : getActiveReminder (some e.id) (some e.user_id) e.username db.reminders
        = some r) :
    skipCommand callerId cu ok now db
      = { (moveUserToBackByQueueId e.id (deleteReminder r.id db)).2 with
          skipRows := 0 }
    ∧ (skipCommand callerId cu ok now db).reminders
        = (deleteReminder r.id db).reminders
    ∧ (skipCommand callerId cu ok now db).notified = db.notified
    ∧ isWeekSkipped (skipCommand callerId cu ok now db) = false := by
  have hskip2 : isWeekSkipped
      (moveUserToBackByQueueId e.id (deleteReminder r.id db)).2 = true := by
    unfold isWeekSkipped at hskip ⊢
    rw [moveBack_skipRows]
    exact hskip
  have h2 : skipCommand callerId cu ok now db
      = { (moveUserToBackByQueueId e.id (deleteReminder r.id db)).2 with
          skipRows := 0 } := by
    rw [skipCommand_eq_of_found callerId cu ok now he hr,
        dispatch_skip_eq ok now hskip2]
    rfl
  refine ⟨h2, ?_, ?_, ?_⟩
  · rw [h2]
    exact moveBack_reminders _ _
  · rw [h2]
    exact moveBack_notified _ _
  · rw [h2]
    rfl

/-- Witness for C10 at a concrete two-entry state. -/
theorem c10_self_skip_consumes_flag_witness :
    skipCommand 7 none true 5 dbC10
      = { (moveUserToBackByQueueId 1 (deleteReminder 1 dbC10)).2 with
          skipRows := 0 }
    ∧ (skipCommand 7 none true 5 dbC10).reminders
        = (deleteReminder 1 dbC10).reminders
    ∧ (skipCommand 7 none true 5 dbC10).notified = dbC10.notified
    ∧ isWeekSkipped (skipCommand 7 none true 5 dbC10) = false :=
  c10_self_skip_consumes_flag dbC10 7 none true 5 ⟨1, 7, none, 0⟩
    ⟨1, 1, 7, none, 0, 0, 0, none⟩ rfl rfl rfl

/-! Helper lemmas for the rotation-correctness proof. -/

theorem le_natMax {l : List Nat} {x : Nat} (h : x ∈ l) : x ≤ natMax l := by
  induction l with
  | nil => cases h
  | cons a t ih =>
    rcases List.mem_cons.1 h with rfl | h'
    · exact le_max_left _ _
    · exact le_trans (ih h') (le_max_right _ _)

theorem natMax_mem {l : List Nat} (h : l ≠ []) : natMax l ∈ l := by
  induction l with
  | nil => exact absurd rfl h
  | cons a t ih =>
    cases t with
    | nil => simp [natMax]
    | cons b t' =>
      show max a (natMax (b :: t')) ∈ a :: b :: t'
      rcases Nat.le_total a (natMax (b :: t')) with h1 | h1
      · rw [max_eq_right h1]
        exact List.mem_cons_of_mem _ (ih (by simp))
      · rw [max_eq_left h1]
        exact List.mem_cons_self _ _

theorem dense_nodup {q : List Entry} (hd : densePositions q) :
    (q.map (fun e => e.position)).Nodup :=
  hd.nodup_iff.2 (List.nodup_range _)

theorem dense_pos_lt {q : List Entry} (hd : densePositions q) {e : Entry}
    (he : e ∈ q) : e.position < q.length :=
  List.mem_range.1 (hd.mem_iff.1 (List.mem_map_of_mem _ he))

theorem dense_max {q : List Entry} (hd : densePositions q) (hne : q ≠ []) :
    maxPosition? q = some (q.length - 1) := by
  cases q with
  | nil => exact absurd rfl hne
  | cons a t =>
    show some (natMax ((a :: t).map (fun e => e.position))) = some ((a :: t).length - 1)
    refine congrArg some ?_
    have hmem : natMax ((a :: t).map (fun e => e.position))
        ∈ (a :: t).map (fun e => e.position) := natMax_mem (by simp)
    have h1 : natMax ((a :: t).map (fun e => e.position)) < (a :: t).length :=
      List.mem_range.1 (hd.mem_iff.1 hmem)
    have h2 : (a :: t).length - 1 ∈ (a :: t).map (fun e => e.position) :=
      hd.mem_iff.2 (List.mem_range.2 (by simp))
    have h3 := le_natMax h2
    omega

theorem entry_id_inj {q : List Entry} (h : (q.map (fun e => e.id)).Nodup)
    {e1 e2 : Entry} (h1 : e1 ∈ q) (h2 : e2 ∈ q) (he : e1.id = e2.id) : e1 = e2 :=
  List.inj_on_of_nodup_map h h1 h2 he

theorem entry_pos_inj {q : List Entry} (hd : densePositions q)
    {e1 e2 : Entry} (h1 : e1 ∈ q) (h2 : e2 ∈ q)
    (he : e1.position = e2.position) : e1 = e2 :=
  List.inj_on_of_nodup_map (dense_nodup hd) h1 h2 he

theorem find_entry_by_id {q : List Entry} {E : Entry} {qid : Nat}
    (hnodup : (q.map (fun e => e.id)).Nodup) (hmem : E ∈ q) (hid : E.id = qid) :
    q.find? (fun e => e.id == qid) = some E := by
  have hs : (q.find? (fun e => e.id == qid)).isSome = true :=
    List.find?_isSome.2 ⟨E, hmem, by simp [hid]⟩
  cases hF : q.find? (fun e => e.id == qid) with
  | none =>
    rw [hF] at hs
    simp at hs
  | some F =>
    have hFmem := List.mem_of_find?_eq_some hF
    have hFid : (F.id == qid) = true :=
      @List.find?_some _ (fun e => e.id == qid) F q hF
    have hFid' : F.id = qid := beq_iff_eq.1 hFid
    have hFE : F = E := entry_id_inj hnodup hFmem hmem (hFid'.trans hid.symm)
    rw [hFE]

theorem moveBack_found_noop {db : DB} {E : Entry} {qid m : Nat}
    (hfind : db.queue.find? (fun e => e.id == qid) = some E)
    (hmax : maxPosition? db.queue = some m)
    (heq : (E.position == m) = true) :
    moveUserToBackByQueueId qid db = (true, db) := by
  unfold moveUserToBackByQueueId
  rw [hfind, hmax]
  simp [heq]

theorem moveBack_found_eq {db : DB} {E : Entry} {qid m : Nat}
    (hfind : db.queue.find? (fun e => e.id == qid) = some E)
    (hmax : maxPosition? db.queue = some m)
    (hne : (E.position == m) = false) :
    moveUserToBackByQueueId qid db
      = (true, { db with queue :=
          (db.queue.map (fun x =>
            if E.position < x.position && !(x.id == qid)
            then { x with position := x.position - 1 } else x)).map (fun x =>
            if x.id == qid then { x with position := m } else x) }) := by
  unfold moveUserToBackByQueueId
  rw [hfind, hmax]
  simp [hne]

theorem moveBack_queue_rot (P M qid : Nat) (q : List Entry) :
    (q.map (fun x =>
      if P < x.position && !(x.id == qid)
      then { x with position := x.position - 1 } else x)).map (fun x =>
      if x.id == qid then { x with position := M } else x)
      = q.map (rotApply P M qid) := by
  rw [List.map_map]
  refine List.map_congr_left ?_
  intro e _
  show (fun x => if x.id == qid then { x with position := M } else x)
      ((fun x => if P < x.position && !(x.id == qid)
        then { x with position := x.position - 1 } else x) e)
      = rotApply P M qid e
  by_cases hid : (e.id == qid) = true
  · simp [rotApply, hid]
  · by_cases hlt : P < e.position
    · simp [rotApply, hid, hlt]
    · simp [rotApply, hid, hlt]

theorem rotApply_position (P M qid : Nat) (e : Entry) :
    (rotApply P M qid e).position
      = if e.id == qid then M
        else if P < e.position then e.position - 1 else e.position := by
  unfold rotApply
  split_ifs <;> rfl

theorem rot_range_perm (N P : Nat) (hP : P < N) (_hPne : P ≠ N - 1) :
    ((List.range N).map (fun x =>
        if x = P then N - 1 else if P < x then x - 1 else x)).Perm
      (List.range N) := by
  have hinj : ∀ x ∈ List.range N, ∀ y ∈ List.range N,
      (if x = P then N - 1 else if P < x then x - 1 else x)
        = (if y = P then N - 1 else if P < y then y - 1 else y) → x = y := by
    intro x hx y hy hxy
    rw [List.mem_range] at hx hy
    split_ifs at hxy <;> omega
  refine (List.perm_ext_iff_of_nodup
      (List.Nodup.map_on hinj (List.nodup_range N)) (List.nodup_range N)).2 ?_
  intro a
  simp only [List.mem_map, List.mem_range]
  constructor
  · rintro ⟨x, hx, rfl⟩
    split_ifs <;> omega
  · intro ha
    by_cases h1 : a = N - 1
    · exact ⟨P, hP, by simp [h1]⟩
    · by_cases h2 : a < P
      · refine ⟨a, ha, ?_⟩
        rw [if_neg (by omega), if_neg (by omega)]
      · refine ⟨a + 1, by omega, ?_⟩
        rw [if_neg (by omega), if_pos (by omega)]
        omega

/-- C4: correctness of the rotation primitive on a well-formed queue
(dense positions, distinct primary keys).  When no entry carries the
requested id the call fails and changes nothing.  On an entry E at
position P with maximum position M = N - 1: if P = M the call is a
successful no-op; otherwise every other entry with position above P is
decremented by one, E ends at position M, the relative order of the other
entries is preserved, E alone sits at the back, and the resulting
positions are again the dense range 0..M. -/
theorem c4_move_to_back_correct (db : DB) (qid : Nat) :
    (db.queue.find? (fun e => e.id == qid) = none →
      moveUserToBackByQueueId qid db = (false, db))
    ∧ (∀ E : Entry, (db.queue.map (fun e => e.id)).Nodup →
        densePositions db.queue → E ∈ db.queue → E.id = qid →
        (moveUserToBackByQueueId qid db).1 = true
        ∧ maxPosition? db.queue = some (db.queue.length - 1)
        ∧ (E.position = db.queue.length - 1 →
            (moveUserToBackByQueueId qid db).2 = db)
        ∧ (E.position ≠ db.queue.length - 1 →
            (moveUserToBackByQueueId qid db).2.queue
              = db.queue.map (rotApply E.position (db.queue.length - 1) qid)
            ∧ (∀ e1, e1 ∈ db.queue → ∀ e2, e2 ∈ db.queue →
                e1.id ≠ qid → e2.id ≠ qid →
                ((rotApply E.position (db.queue.length - 1) qid e1).position
                  < (rotApply E.position (db.queue.length - 1) qid e2).position
                 ↔ e1.position < e2.position))
            ∧ (∀ e, e ∈ db.queue → e.id = qid →
                (rotApply E.position (db.queue.length - 1) qid e).position
                  = db.queue.length - 1)
            ∧ (∀ e, e ∈ db.queue → e.id ≠ qid →
                (rotApply E.position (db.queue.length - 1) qid e).position
                  < db.queue.length - 1)
            ∧ densePositions (moveUserToBackByQueueId qid db).2.queue)) := by
  constructor
  · intro hn
    unfold moveUserToBackByQueueId
    rw [hn]
  · intro E hnodup hdense hmem hid
    have hne : db.queue ≠ [] := by
      intro h0
      rw [h0] at hmem
      cases hmem
    have hNpos : 0 < db.queue.length := List.length_pos.2 hne
    have hmax : maxPosition? db.queue = some (db.queue.length - 1) :=
      dense_max hdense hne
    have hfind : db.queue.find? (fun e => e.id == qid) = some E :=
      find_entry_by_id hnodup hmem hid
    have hElt : E.position < db.queue.length := dense_pos_lt hdense hmem
    by_cases hP : E.position = db.queue.length - 1
    · have heq : (E.position == db.queue.length - 1) = true := by simp [hP]
      have hmv := moveBack_found_noop hfind hmax heq
      exact ⟨by rw [hmv], hmax, fun _ => by rw [hmv], fun hcon => absurd hP hcon⟩
    · have hneq : (E.position == db.queue.length - 1) = false := by simp [hP]
      have hmv := moveBack_found_eq hfind hmax hneq
      have hq : (moveUserToBackByQueueId qid db).2.queue
          = db.queue.map (rotApply E.position (db.queue.length - 1) qid) := by
        rw [hmv]
        exact moveBack_queue_rot E.position (db.queue.length - 1) qid db.queue
      refine ⟨by rw [hmv], hmax, fun hcon => absurd hcon hP,
        fun _ => ⟨hq, ?_, ?_, ?_, ?_⟩⟩
      · intro e1 h1 e2 h2 hn1 hn2
        have hb1 : (e1.id == qid) = false := beq_eq_false_iff_ne.2 hn1
        have hb2 : (e2.id == qid) = false := beq_eq_false_iff_ne.2 hn2
        have hp1 : e1.position ≠ E.position := by
          intro hcon
          exact hn1 ((entry_pos_inj hdense h1 hmem hcon) ▸ hid)
        have hp2 : e2.position ≠ E.position := by
          intro hcon
          exact hn2 ((entry_pos_inj hdense h2 hmem hcon) ▸ hid)
        simp only [rotApply_position, hb1, hb2, Bool.false_eq_true, if_false]
        split_ifs <;> omega
      · intro e hmem' hid'
        have hE : e = E := entry_id_inj hnodup hmem' hmem (hid'.trans hid.symm)
        rw [hE]
        simp [rotApply_position, hid]
      · intro e hmem' hn'
        have hb : (e.id == qid) = false := beq_eq_false_iff_ne.2 hn'
        have hp : e.position ≠ E.position := by
          intro hcon
          exact hn' ((entry_pos_inj hdense hmem' hmem hcon) ▸ hid)
        have hlt : e.position < db.queue.length := dense_pos_lt hdense hmem'
        simp only [rotApply_position, hb, Bool.false_eq_true, if_false]
        split_ifs <;> omega
      · show densePositions (moveUserToBackByQueueId qid db).2.queue
        unfold densePositions
        rw [hq, List.length_map, List.map_map]
        have hpt : db.queue.map
            ((fun e => e.position) ∘ rotApply E.position (db.queue.length - 1) qid)
            = (db.queue.map (fun e => e.position)).map (fun x =>
                if x = E.position then db.queue.length - 1
                else if E.position < x then x - 1 else x) := by
          rw [List.map_map]
          refine List.map_congr_left ?_
          intro e hmemE
          by_cases hidE : e.id = qid
          · have hE : e = E := entry_id_inj hnodup hmemE hmem (hidE.trans hid.symm)
            rw [hE]
            show (rotApply E.position (db.queue.length - 1) qid E).position
                = if E.position = E.position then db.queue.length - 1
                  else if E.position < E.position then E.position - 1 else E.position
            simp [rotApply_position, hid]
          · have hb : (e.id == qid) = false := beq_eq_false_iff_ne.2 hidE
            have hp : e.position ≠ E.position := by
              intro hcon
              exact hidE ((entry_pos_inj hdense hmemE hmem hcon) ▸ hid)
            show (rotApply E.position (db.queue.length - 1) qid e).position
                = if e.position = E.position then db.queue.length - 1
                  else if E.position < e.position then e.position - 1 else e.position
            simp only [rotApply_position, hb, Bool.false_eq_true, if_false, if_neg hp]
        rw [hpt]
        exact ((hdense.map _).trans
          (rot_range_perm db.queue.length E.position hElt hP))

/-- Witness for C4 at a concrete three-entry dense queue: a missing id
fails, and rotating the front entry succeeds and keeps positions dense. -/
theorem c4_move_to_back_correct_witness :
    (moveUserToBackByQueueId 99 dbC4 = (false, dbC4))
    ∧ (moveUserToBackByQueueId 1 dbC4).1 = true
    ∧ densePositions (moveUserToBackByQueueId 1 dbC4).2.queue := by
  have h1 := (c4_move_to_back_correct dbC4 99).1 (by decide)
  have h2 := (c4_move_to_back_correct dbC4 1).2 ⟨1, 7, none, 0⟩
    (by decide) (by decide) (by decide) rfl
  exact ⟨h1, h2.1, (h2.2.2.2 (by decide)).2.2.2.2⟩

end PaperBot
